import Mathlib

/-!
Shallow embedding of the network-escpos printer controller
(src/network-escpos/__init__.py).

Every controller operation is modelled as a pure function from its
arguments to the sequence of ESC/POS commands written to the transport,
with Python exceptions made explicit as error values.  The byte values of
the command constants live in the external `commands` module, which is
absent from src/; commands are therefore represented as a tagged trace
type, and the few constants whose numeric content matters (the size
tables, the table key domains) are modelled from the spec, marked below.
-/

/-- A single ESC/POS command emission, one per call of the controller
method `_raw`.  Each constructor stands for one distinct command constant
(or constant family) of the external `commands` module; parameters record
which table entry was looked up. -/
inductive Cmd where
  | txtSize (b : Nat)
  | txtNormal
  | size2x
  | size2w
  | size2h
  | sizeNormal
  | flipCmd (b : Bool)
  | smoothCmd (b : Bool)
  | boldCmd (b : Bool)
  | underlineCmd (u : Int)
  | setFont (n : Nat)
  | alignCmd (a : String)
  | densityCmd (d : Int)
  | invertCmd (b : Bool)
  | raw (bytes : List Nat)
  | paperFullCut
  | paperPartCut
  deriving DecidableEq, Repr

/-- Python exceptions that the modelled code can raise. -/
inductive PyErr where
  | keyError
  | valueError
  | unicodeEncodeError
  deriving DecidableEq, Repr

/-- A Python numeric argument: either an int or a float (the float
payload is a rational; its value never influences the modelled code,
because every use is guarded by an isinstance int check). -/
inductive PyNum where
  | int (n : Int)
  | float (q : Rat)
  deriving DecidableEq, Repr

/-- The guard of the custom-size branch of `set`:
`1 <= width <= 8 and 1 <= height <= 8 and isinstance(width, int) and
isinstance(height, int)`.  For a float argument the comparisons evaluate
without error and the isinstance conjunct is false, so the guard is false
whenever either argument is not an int, regardless of its value. -/
def sizeGuard : PyNum → PyNum → Bool
  | PyNum.int w, PyNum.int h =>
      decide (1 ≤ w) && decide (w ≤ 8) && decide (1 ≤ h) && decide (h ≤ 8)
  | _, _ => false

/-- Modelled from the spec: the width entry of the size table
(`TXT_STYLE["width"]`, in the `commands` module absent from src/).  Keys
are 1..8; the width multiplier occupies the high nibble of the size byte,
so that width 1, height 1 gives byte 0x00 and width 8, height 8 gives
byte 0x77. -/
def TXT_STYLE_width (n : Int) : Option Nat :=
  if 1 ≤ n ∧ n ≤ 8 then some ((n - 1).toNat * 16) else none

/-- Modelled from the spec: the height entry of the size table
(`TXT_STYLE["height"]`, in the `commands` module absent from src/).  Keys
are 1..8; the height multiplier occupies the low nibble of the size
byte. -/
def TXT_STYLE_height (n : Int) : Option Nat :=
  if 1 ≤ n ∧ n ≤ 8 then some (n - 1).toNat else none

/-- The size byte computed in the custom-size branch of `set`:
`TXT_STYLE["width"][width] + TXT_STYLE["height"][height]`, only reached
when `sizeGuard` holds (under which both lookups are defined). -/
def sizeByte (w h : PyNum) : Option Nat :=
  if sizeGuard w h then
    match w, h with
    | PyNum.int wi, PyNum.int hi =>
        match TXT_STYLE_width wi, TXT_STYLE_height hi with
        | some a, some b => some (a + b)
        | _, _ => none
    | _, _ => none
  else none

/-- The single size-mode command chosen in the non-custom branch of
`set`, by the precedence both-double, width-double, height-double,
normal. -/
def sizeModeOf (double_width double_height : Bool) : Cmd :=
  if double_width && double_height then Cmd.size2x
  else if double_width then Cmd.size2w
  else if double_height then Cmd.size2h
  else Cmd.sizeNormal

/-- The size block of `set`: with custom_size, the size-select command
carrying the one computed size byte (silently skipped when the guard
fails); otherwise the TXT_NORMAL reset followed by one size-mode
command. -/
def sizeBlock (w h : PyNum) (double_width double_height custom_size : Bool) : List Cmd :=
  if custom_size then
    match sizeByte w h with
    | some b => [Cmd.txtSize b]
    | none => []
  else
    [Cmd.txtNormal, sizeModeOf double_width double_height]

/-- Modelled from the spec: the underline table `TXT_STYLE["underline"]`
(in the `commands` module absent from src/) has keys 0, 1, 2; any other
key raises KeyError. -/
def TXT_STYLE_underline (u : Int) : Option Cmd :=
  if u = 0 ∨ u = 1 ∨ u = 2 then some (Cmd.underlineCmd u) else none

/-- Modelled from the spec: the alignment table `TXT_STYLE["align"]`
(in the `commands` module absent from src/) has keys left, center,
right; any other key raises KeyError. -/
def TXT_STYLE_align (a : String) : Option Cmd :=
  if a = "left" ∨ a = "center" ∨ a = "right" then some (Cmd.alignCmd a) else none

/-- Modelled from the spec: the density table `TXT_STYLE["density"]`
(in the `commands` module absent from src/) has keys 0..8; any other key
raises KeyError. -/
def TXT_STYLE_density (d : Int) : Option Cmd :=
  if 0 ≤ d ∧ d ≤ 8 then some (Cmd.densityCmd d) else none

/-- The part of `set` after the size block: flip, smoothing, bold,
underline, font select (hardcoded index 1), alignment, density only when
density is not the sentinel 9, and invert last.  Returns the commands
emitted before any failing table lookup, paired with the raised KeyError
when a lookup fails. -/
def styleTail (align : String) (bold : Bool) (underline density : Int)
    (invert smooth flip : Bool) : List Cmd × Option PyErr :=
  let pre := [Cmd.flipCmd flip, Cmd.smoothCmd smooth, Cmd.boldCmd bold]
  match TXT_STYLE_underline underline with
  | none => (pre, some PyErr.keyError)
  | some uc =>
    let pre2 := pre ++ [uc, Cmd.setFont 1]
    match TXT_STYLE_align align with
    | none => (pre2, some PyErr.keyError)
    | some ac =>
      let pre3 := pre2 ++ [ac]
      if density = 9 then (pre3 ++ [Cmd.invertCmd invert], none)
      else
        match TXT_STYLE_density density with
        | none => (pre3, some PyErr.keyError)
        | some dc => (pre3 ++ [dc, Cmd.invertCmd invert], none)

/-- NetworkPrinter.set: the full command trace written to the transport,
paired with the exception raised, if any.  The `font` argument is
accepted but never consulted, exactly as in the source. -/
def NetworkPrinter.set (align font : String) (bold : Bool) (underline : Int) (width height : PyNum)
    (density : Int) (invert smooth flip double_width double_height custom_size : Bool) :
    List Cmd × Option PyErr :=
  let _ := font
  let t := styleTail align bold underline density invert smooth flip
  (sizeBlock width height double_width double_height custom_size ++ t.1, t.2)

/-- Python str.upper for the ASCII-letter range (the modelled alphabet of
cut-mode strings): maps basic latin lower-case letters to upper case and
leaves every other character unchanged. -/
def pyUpper (s : String) : String :=
  String.mk (s.data.map Char.toUpper)

/-- Modelled from the spec: case-insensitive string equality, realised as
equality after upper-casing both sides. -/
def eqIgnoreCase (a b : String) : Bool :=
  pyUpper a == pyUpper b

/-- NetworkPrinter.cut: six newline bytes, then the partial-cut command
when the upper-cased mode equals PART, and the full-cut command for any
other string. -/
def cut (mode : String) : List Cmd :=
  [Cmd.raw (List.replicate 6 10),
   if pyUpper mode = "PART" then Cmd.paperPartCut else Cmd.paperFullCut]

/-- Modelled from the spec: the configured code page (default cp866)
agrees with ASCII on code points below 128; encoding of further code
points is outside the modelled alphabet and reported as an encoding
error. -/
def encodeChar (c : Char) : Option Nat :=
  if c.toNat < 128 then some c.toNat else none

/-- Encode a list of characters in the configured code page, failing as
soon as one character is not representable. -/
def encodeList : List Char → Option (List Nat)
  | [] => some []
  | c :: cs =>
    match encodeChar c, encodeList cs with
    | some b, some bs => some (b :: bs)
    | _, _ => none

/-- Encode a whole string in the configured code page. -/
def encode (s : String) : Option (List Nat) :=
  encodeList s.data

/-- NetworkPrinter.text: the bytes written for a text string, or the
encoding error raised when the string is not representable. -/
def text (txt : String) : Except PyErr (List Nat) :=
  match encode txt with
  | some bs => Except.ok bs
  | none => Except.error PyErr.unicodeEncodeError

/-- NetworkPrinter.text_ln: the source formats the string with a
trailing newline and delegates to text. -/
def text_ln (txt : String) : Except PyErr (List Nat) :=
  text (txt ++ "\n")

/-- Python string repetition, as in the newline buffer of `ln`. -/
def pyStrRepeat (s : String) (n : Nat) : String :=
  String.mk (List.replicate n s.data).flatten

/-- NetworkPrinter.ln: raises ValueError for a negative count, writes
nothing for count zero, and writes the count-fold newline string
otherwise. -/
def ln (count : Int) : Except PyErr (List Nat) :=
  if count < 0 then Except.error PyErr.valueError
  else if 0 < count then text (pyStrRepeat "\n" count.toNat)
  else Except.ok []

/-- NetworkPrinter.is_online as a function of the status-response bytes
and the online mask RT_MASK_ONLINE (a constant of the `commands` module
absent from src/, kept as a parameter): false on an empty response,
otherwise the Python truthiness negation of the masked first byte. -/
def is_online (mask : Nat) (status : List Nat) : Bool :=
  match status with
  | [] => false
  | b :: _ => decide (b &&& mask = 0)

/-- NetworkPrinter.paper_status as a function of the status-response
bytes and the three masks RT_MASK_NOPAPER, RT_MASK_LOWPAPER,
RT_MASK_PAPER (constants of the `commands` module absent from src/, kept
as parameters): 2 on an empty response, otherwise the first matching mask
in priority order, and the implicit Python None (here: none) when no mask
matches. -/
def paper_status (noPaperMask lowPaperMask paperMask : Nat) (status : List Nat) : Option Nat :=
  match status with
  | [] => some 2
  | b :: _ =>
    if b &&& noPaperMask = noPaperMask then some 0
    else if b &&& lowPaperMask = lowPaperMask then some 1
    else if b &&& paperMask = paperMask then some 2
    else none

/-! ### Helper lemmas -/

theorem encodeList_append (l1 l2 : List Char) :
    encodeList (l1 ++ l2) =
      match encodeList l1, encodeList l2 with
      | some a, some b => some (a ++ b)
      | _, _ => none := by
  induction l1 with
  | nil =>
    rw [List.nil_append]
    cases h : encodeList l2 <;> simp [encodeList, h]
  | cons c cs ih =>
    simp only [List.cons_append, encodeList, List.append_eq]
    rw [ih]
    cases encodeChar c <;> cases encodeList cs <;> cases encodeList l2 <;> rfl

theorem flatten_replicate_newline (n : Nat) :
    (List.replicate n ('\n' :: [])).flatten = List.replicate n '\n' := by
  induction n with
  | zero => rfl
  | succ k ih => simp [List.replicate_succ, ih]

theorem encodeList_replicate_newline (n : Nat) :
    encodeList (List.replicate n '\n') = some (List.replicate n 10) := by
  induction n with
  | zero => rfl
  | succ k ih => simp [List.replicate_succ, encodeList, ih, encodeChar]

/-! ### Claims about the status decoders -/

/-- Claim C2: paper_status returns 2 on an empty response; on a
non-empty response it tests the first byte against the no-paper,
low-paper and paper-present masks in that priority order, returning 0, 1
and 2 respectively for the first match, and yields no defined value when
none of the three masks matches. -/
theorem paper_status_cases (nm lm pm b : Nat) (rest : List Nat) :
    paper_status nm lm pm [] = some 2
    ∧ (paper_status nm lm pm (b :: rest) = some 0 ↔ b &&& nm = nm)
    ∧ (paper_status nm lm pm (b :: rest) = some 1 ↔ (¬b &&& nm = nm ∧ b &&& lm = lm))
    ∧ (paper_status nm lm pm (b :: rest) = some 2 ↔
        (¬b &&& nm = nm ∧ ¬b &&& lm = lm ∧ b &&& pm = pm))
    ∧ (paper_status nm lm pm (b :: rest) = none ↔
        (¬b &&& nm = nm ∧ ¬b &&& lm = lm ∧ ¬b &&& pm = pm)) := by
  refine ⟨rfl, ?_, ?_, ?_, ?_⟩ <;>
    simp only [paper_status] <;> split_ifs <;> simp_all

/-- Claim C3: is_online returns false on an empty response, and on a
non-empty response returns true exactly when the online mask bits of the
first byte are all clear. -/
theorem is_online_cases (m b : Nat) (rest : List Nat) :
    is_online m [] = false ∧ (is_online m (b :: rest) = true ↔ b &&& m = 0) := by
  unfold is_online
  exact ⟨rfl, by simp⟩

/-! ### Claims about the text operations -/

/-- Claim C9: text_ln writes exactly the bytes that text writes for the
string with a newline appended; in particular a successful text write of
bytes bs makes text_ln write bs followed by the newline byte. -/
theorem text_ln_eq_text (txt : String) :
    text_ln txt = text (txt ++ "\n")
    ∧ ∀ bs, text txt = Except.ok bs → text_ln txt = Except.ok (bs ++ [10]) := by
  refine ⟨rfl, ?_⟩
  intro bs hok
  have henc : encode txt = some bs := by
    unfold text at hok
    cases h : encode txt with
    | none => rw [h] at hok; cases hok
    | some v => rw [h] at hok; cases hok; rfl
  unfold text_ln text encode at *
  rw [String.data_append, encodeList_append, henc]
  rfl

/-- Claim C8: ln fails with a ValueError for a negative count, writes
nothing for count zero, and writes exactly count newline bytes for a
positive count. -/
theorem ln_cases (count : Int) :
    ln count = if count < 0 then Except.error PyErr.valueError
               else Except.ok (List.replicate count.toNat 10) := by
  unfold ln
  split_ifs with h1 h2
  · rfl
  · unfold text encode pyStrRepeat
    simp only [flatten_replicate_newline, encodeList_replicate_newline]
  · have h0 : count.toNat = 0 := by omega
    rw [h0]
    rfl

/-! ### Claim about cut -/

/-- Claim C7: cut writes six newline bytes and then exactly one cut
command for every mode string: the partial cut exactly when the mode
case-insensitively equals PART, the full cut for every other string
(typos and the empty string included), never an error. -/
theorem cut_cases (mode : String) :
    (cut mode = [Cmd.raw (List.replicate 6 10), Cmd.paperPartCut]
      ∨ cut mode = [Cmd.raw (List.replicate 6 10), Cmd.paperFullCut])
    ∧ (cut mode = [Cmd.raw (List.replicate 6 10), Cmd.paperPartCut]
        ↔ eqIgnoreCase mode "PART" = true)
    ∧ cut "PART" = [Cmd.raw (List.replicate 6 10), Cmd.paperPartCut]
    ∧ cut "part" = [Cmd.raw (List.replicate 6 10), Cmd.paperPartCut]
    ∧ cut "full" = [Cmd.raw (List.replicate 6 10), Cmd.paperFullCut]
    ∧ cut "xyz" = [Cmd.raw (List.replicate 6 10), Cmd.paperFullCut]
    ∧ cut "" = [Cmd.raw (List.replicate 6 10), Cmd.paperFullCut] := by
  have hbase : pyUpper "PART" = "PART" := by decide
  refine ⟨?_, ?_, by decide, by decide, by decide, by decide, by decide⟩
  · unfold cut
    by_cases hp : pyUpper mode = "PART"
    · exact Or.inl (by rw [if_pos hp])
    · exact Or.inr (by rw [if_neg hp])
  · unfold cut eqIgnoreCase
    rw [hbase]
    by_cases hp : pyUpper mode = "PART"
    · simp [hp]
    · simp [hp]

/-! ### Helper lemmas about the style tables and styleTail -/

theorem TXT_STYLE_underline_valid (u : Int) (hu : u = 0 ∨ u = 1 ∨ u = 2) :
    TXT_STYLE_underline u = some (Cmd.underlineCmd u) := by
  unfold TXT_STYLE_underline
  rw [if_pos hu]

theorem TXT_STYLE_align_valid (a : String) (ha : a = "left" ∨ a = "center" ∨ a = "right") :
    TXT_STYLE_align a = some (Cmd.alignCmd a) := by
  unfold TXT_STYLE_align
  rw [if_pos ha]

theorem styleTail_valid (align : String) (bold : Bool) (underline density : Int)
    (invert smooth flip : Bool)
    (hu : underline = 0 ∨ underline = 1 ∨ underline = 2)
    (ha : align = "left" ∨ align = "center" ∨ align = "right")
    (hd : density = 9 ∨ (0 ≤ density ∧ density ≤ 8)) :
    styleTail align bold underline density invert smooth flip
      = ([Cmd.flipCmd flip, Cmd.smoothCmd smooth, Cmd.boldCmd bold,
          Cmd.underlineCmd underline, Cmd.setFont 1, Cmd.alignCmd align]
          ++ (if density = 9 then [] else [Cmd.densityCmd density])
          ++ [Cmd.invertCmd invert], none) := by
  unfold styleTail
  rw [TXT_STYLE_underline_valid underline hu, TXT_STYLE_align_valid align ha]
  by_cases h9 : density = 9
  · simp [h9]
  · have hd' : TXT_STYLE_density density = some (Cmd.densityCmd density) := by
      unfold TXT_STYLE_density
      rcases hd with h | h
      · exact absurd h h9
      · rw [if_pos h]
    simp [h9, hd']

/-! ### Claims about set -/

/-- Claim C4: after the size block, set always emits flip, smoothing,
bold, underline, font select and alignment in this fixed order, the font
select always carrying index 1 whatever the font argument, then the
density command exactly when density is not 9, and invert last, for any
valid underline, align and density arguments. -/
theorem set_tail_order (align font : String) (bold : Bool) (underline density : Int)
    (w h : PyNum) (invert smooth flip dw dh cs : Bool)
    (hu : underline = 0 ∨ underline = 1 ∨ underline = 2)
    (ha : align = "left" ∨ align = "center" ∨ align = "right")
    (hd : density = 9 ∨ (0 ≤ density ∧ density ≤ 8)) :
    NetworkPrinter.set align font bold underline w h density invert smooth flip dw dh cs
      = (sizeBlock w h dw dh cs
          ++ [Cmd.flipCmd flip, Cmd.smoothCmd smooth, Cmd.boldCmd bold,
              Cmd.underlineCmd underline, Cmd.setFont 1, Cmd.alignCmd align]
          ++ (if density = 9 then [] else [Cmd.densityCmd density])
          ++ [Cmd.invertCmd invert], none) := by
  unfold NetworkPrinter.set
  rw [styleTail_valid align bold underline density invert smooth flip hu ha hd]
  simp

/-- Witness for claim C4 at concrete arguments: density 5 is emitted
between alignment and invert, font select carries 1 although font b was
requested. -/
theorem set_tail_order_witness :
    NetworkPrinter.set "center" "b" true 2 (PyNum.int 1) (PyNum.int 1) 5 true true true false false false
      = (sizeBlock (PyNum.int 1) (PyNum.int 1) false false false
          ++ [Cmd.flipCmd true, Cmd.smoothCmd true, Cmd.boldCmd true,
              Cmd.underlineCmd 2, Cmd.setFont 1, Cmd.alignCmd "center"]
          ++ (if (5 : Int) = 9 then [] else [Cmd.densityCmd 5])
          ++ [Cmd.invertCmd true], none) :=
  set_tail_order "center" "b" true 2 5 (PyNum.int 1) (PyNum.int 1) true true true
    false false false (by decide) (by decide) (by decide)

/-- Recognizer for the four size-mode commands of the non-custom size
branch. -/
def isSizeMode : Cmd → Bool
  | Cmd.size2x => true
  | Cmd.size2w => true
  | Cmd.size2h => true
  | Cmd.sizeNormal => true
  | _ => false

theorem isSizeMode_sizeModeOf (dw dh : Bool) : isSizeMode (sizeModeOf dw dh) = true := by
  cases dw <;> cases dh <;> rfl

theorem styleTail_countP_sizeMode (align : String) (bold : Bool) (underline density : Int)
    (invert smooth flip : Bool) :
    ((styleTail align bold underline density invert smooth flip).1).countP
      (fun c => isSizeMode c) = 0 := by
  unfold styleTail TXT_STYLE_underline TXT_STYLE_align TXT_STYLE_density
  split_ifs <;>
    simp [isSizeMode, List.countP_cons, List.countP_append, List.countP_nil]

theorem set_snd (align font : String) (bold : Bool) (underline density : Int)
    (w h : PyNum) (invert smooth flip dw dh cs : Bool) :
    (NetworkPrinter.set align font bold underline w h density invert smooth flip dw dh cs).2
      = (styleTail align bold underline density invert smooth flip).2 := rfl

/-- Claim C5: with custom_size false, set emits the normal-size reset
followed by exactly one size-mode command, chosen by the precedence
both-double, width-double, height-double, normal; in particular
double width alone selects the 2w command. -/
theorem set_doubleSize_mode (align font : String) (bold : Bool) (underline density : Int)
    (w h : PyNum) (invert smooth flip dw dh : Bool) :
    ((NetworkPrinter.set align font bold underline w h density invert smooth flip dw dh false).1
        = Cmd.txtNormal :: sizeModeOf dw dh
            :: (styleTail align bold underline density invert smooth flip).1)
    ∧ ((NetworkPrinter.set align font bold underline w h density invert smooth flip dw dh false).1).countP
        (fun c => isSizeMode c) = 1
    ∧ sizeModeOf dw dh
        = (if dw && dh then Cmd.size2x
           else if dw then Cmd.size2w
           else if dh then Cmd.size2h
           else Cmd.sizeNormal)
    ∧ sizeModeOf true false = Cmd.size2w := by
  refine ⟨rfl, ?_, rfl, rfl⟩
  have htrace :
      (NetworkPrinter.set align font bold underline w h density invert smooth flip dw dh false).1
        = Cmd.txtNormal :: sizeModeOf dw dh
            :: (styleTail align bold underline density invert smooth flip).1 := rfl
  rw [htrace]
  have hn : isSizeMode Cmd.txtNormal = false := rfl
  simp [List.countP_cons, hn, isSizeMode_sizeModeOf, styleTail_countP_sizeMode]

/-- Claim C1: for width and height integers in 1..8 with custom_size
true, set emits the size-select command whose single byte is the OR of
the width-table and height-table entries, the width filling the high
nibble and the height the low nibble (and the OR coincides with the sum
computed by the source, since the nibbles are disjoint). -/
theorem set_customSize_sizeByte (w h : Int)
    (hw1 : 1 ≤ w) (hw8 : w ≤ 8) (hh1 : 1 ≤ h) (hh8 : h ≤ 8)
    (align font : String) (bold : Bool) (underline density : Int)
    (invert smooth flip dw dh : Bool) :
    TXT_STYLE_width w = some ((w - 1).toNat * 16)
    ∧ TXT_STYLE_height h = some (h - 1).toNat
    ∧ (NetworkPrinter.set align font bold underline (PyNum.int w) (PyNum.int h) density
          invert smooth flip dw dh true).1
        = Cmd.txtSize ((w - 1).toNat * 16 ||| (h - 1).toNat)
            :: (styleTail align bold underline density invert smooth flip).1
    ∧ (w - 1).toNat * 16 ||| (h - 1).toNat = (w - 1).toNat * 16 + (h - 1).toNat
    ∧ ((w - 1).toNat * 16 ||| (h - 1).toNat) / 16 = (w - 1).toNat
    ∧ ((w - 1).toNat * 16 ||| (h - 1).toNat) % 16 = (h - 1).toNat
    ∧ (w - 1).toNat * 16 ||| (h - 1).toNat < 256 := by
  interval_cases w <;> interval_cases h <;>
    exact ⟨rfl, rfl, rfl, by decide, by decide, by decide, by decide⟩

/-- Witness for claim C1: the ESC/POS reference values, width 1 and
height 1 give size byte 0x00, width 8 and height 8 give size byte 0x77,
together with the instantiated theorem at width 8, height 8. -/
theorem set_customSize_sizeByte_witness :
    ((NetworkPrinter.set "left" "a" false 0 (PyNum.int 1) (PyNum.int 1) 9 false false false
        false false true).1.head? = some (Cmd.txtSize 0x00))
    ∧ ((NetworkPrinter.set "left" "a" false 0 (PyNum.int 8) (PyNum.int 8) 9 false false false
        false false true).1.head? = some (Cmd.txtSize 0x77))
    ∧ (TXT_STYLE_width 8 = some (((8 : Int) - 1).toNat * 16)
        ∧ TXT_STYLE_height 8 = some ((8 : Int) - 1).toNat
        ∧ (NetworkPrinter.set "left" "a" false 0 (PyNum.int 8) (PyNum.int 8) 9 false false false
              false false true).1
            = Cmd.txtSize (((8 : Int) - 1).toNat * 16 ||| ((8 : Int) - 1).toNat)
                :: (styleTail "left" false 0 9 false false false).1
        ∧ ((8 : Int) - 1).toNat * 16 ||| ((8 : Int) - 1).toNat
            = ((8 : Int) - 1).toNat * 16 + ((8 : Int) - 1).toNat
        ∧ (((8 : Int) - 1).toNat * 16 ||| ((8 : Int) - 1).toNat) / 16 = ((8 : Int) - 1).toNat
        ∧ (((8 : Int) - 1).toNat * 16 ||| ((8 : Int) - 1).toNat) % 16 = ((8 : Int) - 1).toNat
        ∧ ((8 : Int) - 1).toNat * 16 ||| ((8 : Int) - 1).toNat < 256) :=
  ⟨by decide, by decide,
   set_customSize_sizeByte 8 8 (by decide) (by decide) (by decide) (by decide)
     "left" "a" false 0 9 false false false false false⟩

/-- The claim-side range predicate for custom sizes: a Python number
that is an integer lying in 1..8. -/
def inCustomRange : PyNum → Bool
  | PyNum.int n => decide (1 ≤ n) && decide (n ≤ 8)
  | PyNum.float _ => false

theorem sizeGuard_false_of_bad (w h : PyNum)
    (hbad : inCustomRange w = false ∨ inCustomRange h = false) :
    sizeGuard w h = false := by
  cases w with
  | float q => cases h <;> rfl
  | int wi =>
    cases h with
    | float q => rfl
    | int hi =>
      by_contra hc
      rw [Bool.not_eq_false] at hc
      simp only [sizeGuard, Bool.and_eq_true, decide_eq_true_eq] at hc
      obtain ⟨⟨⟨h1, h2⟩, h3⟩, h4⟩ := hc
      rcases hbad with hb | hb <;>
        simp only [inCustomRange, Bool.and_eq_false_iff, decide_eq_false_iff_not] at hb <;>
        rcases hb with hb | hb <;> omega

/-- Claim C6: with custom_size true but width or height not an integer
in 1..8, the size command is silently skipped: set emits no size command,
raises no error, and the remainder of the call proceeds unchanged (for
valid underline, align and density arguments). -/
theorem set_customSize_skip (align font : String) (bold : Bool) (underline density : Int)
    (w h : PyNum) (invert smooth flip dw dh : Bool)
    (hbad : inCustomRange w = false ∨ inCustomRange h = false)
    (hu : underline = 0 ∨ underline = 1 ∨ underline = 2)
    (ha : align = "left" ∨ align = "center" ∨ align = "right")
    (hd : density = 9 ∨ (0 ≤ density ∧ density ≤ 8)) :
    NetworkPrinter.set align font bold underline w h density invert smooth flip dw dh true
      = ([Cmd.flipCmd flip, Cmd.smoothCmd smooth, Cmd.boldCmd bold,
          Cmd.underlineCmd underline, Cmd.setFont 1, Cmd.alignCmd align]
          ++ (if density = 9 then [] else [Cmd.densityCmd density])
          ++ [Cmd.invertCmd invert], none) := by
  have hg := sizeGuard_false_of_bad w h hbad
  unfold NetworkPrinter.set
  rw [styleTail_valid align bold underline density invert smooth flip hu ha hd]
  simp [sizeBlock, sizeByte, hg]

/-- Witness for claim C6: width 9 is out of range, so the size command
is skipped while the style commands still go out and no error is
raised. -/
theorem set_customSize_skip_witness :
    NetworkPrinter.set "left" "a" false 0 (PyNum.int 9) (PyNum.int 1) 9 false false false
        false false true
      = ([Cmd.flipCmd false, Cmd.smoothCmd false, Cmd.boldCmd false,
          Cmd.underlineCmd 0, Cmd.setFont 1, Cmd.alignCmd "left"]
          ++ (if (9 : Int) = 9 then [] else [Cmd.densityCmd 9])
          ++ [Cmd.invertCmd false], none) :=
  set_customSize_skip "left" "a" false 0 9 (PyNum.int 9) (PyNum.int 1) false false false
    false false (by decide) (by decide) (by decide) (by decide)

/-- Claim C10: an align value outside left, center, right, or an
underline value outside 0..2, makes set raise a KeyError from the table
lookup rather than silently falling back to a default. -/
theorem set_invalid_key_raises (align font : String) (bold : Bool) (underline density : Int)
    (w h : PyNum) (invert smooth flip dw dh cs : Bool)
    (hbad : ¬(underline = 0 ∨ underline = 1 ∨ underline = 2)
        ∨ ¬(align = "left" ∨ align = "center" ∨ align = "right")) :
    (NetworkPrinter.set align font bold underline w h density invert smooth flip dw dh cs).2
      = some PyErr.keyError := by
  rw [set_snd]
  rcases hbad with hb | hb
  · have h1 : TXT_STYLE_underline underline = none := by
      unfold TXT_STYLE_underline
      rw [if_neg hb]
    simp [styleTail, h1]
  · have h2 : TXT_STYLE_align align = none := by
      unfold TXT_STYLE_align
      rw [if_neg hb]
    cases hu : TXT_STYLE_underline underline with
    | none => simp [styleTail, hu]
    | some uc => simp [styleTail, hu, h2]

/-- Witness for claim C10: a misspelled alignment and an out-of-range
underline level raise a KeyError. -/
theorem set_invalid_key_raises_witness :
    (NetworkPrinter.set "centre" "a" false 3 (PyNum.int 1) (PyNum.int 1) 9 false false false
        false false false).2 = some PyErr.keyError :=
  set_invalid_key_raises "centre" "a" false 3 9 (PyNum.int 1) (PyNum.int 1) false false false
    false false false (by decide)

/-- Witness for claim C9: the bytes of text_ln on a concrete string are
the bytes of text followed by the newline byte. -/
theorem text_ln_eq_text_witness :
    text_ln "abc" = Except.ok ([97, 98, 99] ++ [10]) :=
  (text_ln_eq_text "abc").2 [97, 98, 99] rfl
